import Mathlib

/-!
Verification of the NeuroHack long-term-memory lifecycle engine.

This file gives a shallow embedding, in Lean 4, of the memory lifecycle code
of the repository (`src/core/db.py`, `src/core/memory_extractor.py`,
`src/core/memory_injector.py`, `src/core/memory_controller.py`) and proves or
refutes the specification claims about it.

Modelling conventions:
* Python floats are modelled as exact rationals (`ℚ`) wherever the code only
  ever combines rational constants (confidences, similarity scores,
  thresholds), and as reals (`ℝ`) for the one genuinely transcendental
  computation, the exponential decay `0.95 ** (elapsed / 100)`.
* The PostgreSQL `memories` table is a list of rows; SQL `UPDATE ... WHERE`
  maps over the list, `INSERT` appends, `SELECT ... fetchone` is `List.find?`,
  and `NOW()` is an explicit `now : ℤ` argument.
* The external Gemini capabilities are parameters.  A call that can raise is a
  function into `Except Unit _`.  The JSON decoding of the extraction model's
  raw text (`json.loads` plus the bare-array / wrapped-object / single-object
  normalisation of `memory_extractor.py` lines 43-66) is abstracted: the
  extraction capability yields the decoded candidate items directly,
  `Except.ok none` standing for empty or unparseable output.  Candidate items
  themselves are records of the fields the validator reads; the
  `confidence`/`confidence_score`/`score` fallback chain with `float(...)`
  coercion (lines 136-143) is collapsed into one optional rational that
  defaults to `0.8` when absent.
* The append-only `memory_usage` analytics log is not modelled: the code never
  reads it back on any path the claims mention.
* Wall-clock timing (`time.time()`) is abstracted to `0`.
-/

namespace NeuroHack

/-! ## Python string primitives

The heuristics work on lowercased ASCII text via `str.lower`, `str.strip`,
`str.split` (on whitespace runs), substring containment (`in`), and
`startswith`/`endswith`.  We implement these over `List Char`.
-/

def is_ws (c : Char) : Bool := c.isWhitespace

/-- `str.lower` (the inputs of interest are ASCII). -/
def py_lower (s : String) : String := String.mk (s.toList.map Char.toLower)

def strip_list (l : List Char) : List Char :=
  ((l.dropWhile is_ws).reverse.dropWhile is_ws).reverse

/-- `str.strip()`: remove leading and trailing whitespace. -/
def py_strip (s : String) : String := String.mk (strip_list s.toList)

/-- `len(s)` on a Python `str` counts code points. -/
def py_len (s : String) : Nat := s.toList.length

def split_ws_aux : List Char → List Char → List String
  | [], acc => if acc.isEmpty then [] else [String.mk acc.reverse]
  | c :: cs, acc =>
    if is_ws c then
      if acc.isEmpty then split_ws_aux cs []
      else String.mk acc.reverse :: split_ws_aux cs []
    else split_ws_aux cs (c :: acc)

/-- `str.split()` with no separator: split on whitespace runs, no empties. -/
def py_split (s : String) : List String := split_ws_aux s.toList []

def sublist_of (needle : List Char) : List Char → Bool
  | [] => needle.isEmpty
  | c :: t => needle.isPrefixOf (c :: t) || sublist_of needle t

/-- Python `needle in hay` on strings: contiguous substring containment. -/
def py_contains (hay needle : String) : Bool := sublist_of needle.toList hay.toList

/-- `s.startswith(p)`. -/
def starts_with (s p : String) : Bool := p.toList.isPrefixOf s.toList

/-- `s.endswith(c)` for a single-character suffix: the last character is `c`. -/
def ends_with_char (s : String) (c : Char) : Bool := decide (s.toList.getLast? = some c)

/-- Number of distinct strings occurring in both lists: the size of the
intersection of the two Python `set(...)`s. -/
def count_common (aws bws : List String) : Nat :=
  (aws.dedup.filter (fun w => bws.contains w)).length

/-! ## Memory store (`src/core/db.py` and the schema of `init_db.py`)

One row of the `memories` table.  `confidence` and `decay_score` are `FLOAT`
columns that only ever hold rational values, so they are `ℚ`; timestamps are
abstract instants `ℤ`.
-/

structure MemRow where
  memory_id : String
  user_id : String
  type_ : String
  key : String
  value : String
  confidence : ℚ
  source_turn : ℤ
  last_used_turn : ℤ
  decay_score : ℚ
  created_at : ℤ
  updated_at : ℤ
deriving Repr, DecidableEq

/-- The `memories` table. -/
abbrev Store := List MemRow

/-- The `WHERE user_id = %s AND type = %s AND key = %s` predicate of
`add_memory`'s existence check. -/
def row_matches (user_id type_ key : String) (r : MemRow) : Bool :=
  decide (r.user_id = user_id ∧ r.type_ = type_ ∧ r.key = key)

/-- `SELECT memory_id, confidence FROM memories WHERE ... ` + `fetchone()`. -/
def find_existing (s : Store) (user_id type_ key : String) : Option MemRow :=
  s.find? (row_matches user_id type_ key)

/-- The `UPDATE` clause of `add_memory`: `value = %s`,
`confidence = GREATEST(confidence, %s)`, `updated_at = NOW()`,
`decay_score = GREATEST(decay_score, 0.5)`. -/
def merge_row (value : String) (confidence : ℚ) (now : ℤ) (r : MemRow) : MemRow :=
  { r with
    value := value
    confidence := max r.confidence confidence
    decay_score := max r.decay_score (1/2)
    updated_at := now }

/-- `db.add_memory` (db.py lines 37-103).  Looks up the `(user_id, type, key)`
row; if present and the new confidence clears `existing * 0.8`, merges via
`merge_row`; if present and below the threshold, returns the existing id
without touching the store; otherwise inserts a fresh row with
`last_used_turn = source_turn` and `decay_score = 1.0`.  `fresh_id` stands for
the generated `mem_<uuid>` and `now` for `NOW()`. -/
def add_memory (s : Store) (user_id memory_type key value : String)
    (confidence : ℚ) (source_turn : ℤ) (now : ℤ) (fresh_id : String) :
    String × Store :=
  match find_existing s user_id memory_type key with
  | some existing =>
    if existing.confidence * (4/5) ≤ confidence then
      (existing.memory_id,
        s.map (fun r =>
          if r.memory_id = existing.memory_id then merge_row value confidence now r else r))
    else
      (existing.memory_id, s)
  | none =>
    (fresh_id,
      s ++ [{ memory_id := fresh_id, user_id := user_id, type_ := memory_type,
              key := key, value := value, confidence := confidence,
              source_turn := source_turn, last_used_turn := source_turn,
              decay_score := 1, created_at := now, updated_at := now }])

/-- SQL `ORDER BY last_used_turn DESC, confidence DESC`: `a` may be placed
before `b`. -/
def row_order (a b : MemRow) : Bool :=
  decide (b.last_used_turn < a.last_used_turn) ||
    (decide (a.last_used_turn = b.last_used_turn) && decide (b.confidence ≤ a.confidence))

/-- `db.get_memories_by_types` (db.py lines 105-142).  The `if memory_types:`
test is Python truthiness, so an EMPTY type list selects across ALL types,
exactly as `None` does. -/
def get_memories_by_types (s : Store) (user_id : String) (memory_types : List String)
    (limit : Nat) : List MemRow :=
  let rows :=
    if memory_types.isEmpty then
      s.filter (fun r => decide (r.user_id = user_id))
    else
      s.filter (fun r => decide (r.user_id = user_id) && memory_types.contains r.type_)
  (rows.mergeSort row_order).take limit

/-- `db.update_memory_decay` (db.py lines 144-169): set `decay_score`,
`last_used_turn` and `updated_at` on the row with the given id. -/
def update_memory_decay (s : Store) (memory_id : String) (new_decay : ℚ)
    (last_used_turn : ℤ) (now : ℤ) : Store :=
  s.map (fun r =>
    if r.memory_id = memory_id then
      { r with decay_score := new_decay, last_used_turn := last_used_turn, updated_at := now }
    else r)

/-- The `total_memories` aggregate of `db.get_memory_statistics`. -/
def total_memories (s : Store) (user_id : String) : Nat :=
  (s.filter (fun r => decide (r.user_id = user_id))).length

/-! ## Extractor (`src/core/memory_extractor.py`) -/

/-- A validated extraction candidate, as returned by
`_validate_and_create_memory` (the dict of lines 182-188). -/
structure Memory where
  type_ : String
  key : String
  value : String
  confidence : ℚ
  source_turn : ℤ
deriving Repr, DecidableEq

/-- A model-produced candidate item after JSON decoding: the fields
`_validate_and_create_memory` reads.  `item_value = none` models a JSON
`null` (an absent `value` is `some ""`, the `item.get("value", "")` default);
`item_confidence = none` models an absent or non-numeric confidence, which
the fallback chain of lines 136-143 turns into the default `0.8`. -/
structure RawItem where
  item_type : String
  item_key : String
  item_value : Option String
  item_confidence : Option ℚ
deriving Repr, DecidableEq

def valid_types : List String := ["preference", "constraint", "fact", "instruction", "commitment"]

def placeholder_values_first : List String := ["null", "none", "", "unknown"]

def placeholder_values_second : List String := ["n/a", "not specified", "unknown", "null"]

/-- The key heuristics of lines 162-167: keys mentioning name/location/job
become `fact`, keys mentioning like/prefer/hate become `preference`, anything
else defaults to `fact`. -/
def heuristic_kind (key : String) : String :=
  if py_contains (py_lower key) "name" || py_contains (py_lower key) "location" ||
      py_contains (py_lower key) "job" then "fact"
  else if py_contains (py_lower key) "like" || py_contains (py_lower key) "prefer" ||
      py_contains (py_lower key) "hate" then "preference"
  else "fact"

/-- `_validate_and_create_memory` (memory_extractor.py lines 116-192).
Checks run in source order: null value; empty type/key/value; confidence
floor `0.5` together with the first placeholder list; type normalisation
(`query`/`question` rejected, other unknown kinds remapped by
`heuristic_kind`); confidence clamp into `[0.5, 1.0]`; value length `< 2`;
second placeholder list. -/
def validate_and_create_memory (item : RawItem) (turn_number : ℤ) : Option Memory :=
  let mem_type := py_strip (py_lower item.item_type)
  let key := py_strip item.item_key
  match item.item_value with
  | none => none
  | some v0 =>
    let value := py_strip v0
    let confidence := item.item_confidence.getD (4/5)
    if mem_type = "" ∨ key = "" ∨ value = "" then none
    else if confidence < 1/2 ∨ placeholder_values_first.contains (py_lower value) then none
    else if ¬ valid_types.contains mem_type ∧ (mem_type = "query" ∨ mem_type = "question") then
      none
    else
      let final_type := if valid_types.contains mem_type then mem_type else heuristic_kind key
      let final_confidence := max (1/2) (min 1 confidence)
      if py_len value < 2 then none
      else if placeholder_values_second.contains (py_lower value) then none
      else some { type_ := final_type, key := key, value := value,
                  confidence := final_confidence, source_turn := turn_number }

/-- The f-string extraction directive of lines 27-37. -/
def extraction_prompt (user_input : String) : String :=
  "Extract long-term memories from user statement: \"" ++ user_input ++ "\"\n\n" ++
  "CRITICAL: Output must be a JSON array of memory objects.\n" ++
  "Each memory object MUST have: type, key, value, confidence\n\n" ++
  "Examples:\n" ++
  "- For \"my name is John\": [\x7b\"type\": \"fact\", \"key\": \"name\", \"value\": \"John\", \"confidence\": 0.95\x7d]\n" ++
  "- For \"I like coffee\": [\x7b\"type\": \"preference\", \"key\": \"beverage\", \"value\": \"coffee\", \"confidence\": 0.9\x7d]\n" ++
  "- If nothing to remember: []\n\n" ++
  "Output JSON array:"

/-- The input gate of lines 14-15: falsy (empty) input, or stripped length
below 3. -/
def extraction_gate (user_input : String) : Bool :=
  decide (user_input = "") || py_len (py_strip user_input) < 3

/-- The question gate of line 23: stripped input ending in `?`. -/
def question_gate (user_input : String) : Bool :=
  ends_with_char (py_strip user_input) '?'

/-- `extract_memory_from_input` (memory_extractor.py lines 5-81).  The
returned `Bool` instruments whether the external extraction capability was
invoked.  `llm_extract` abstracts the raw Gemini call composed with
`_parse_json_response` and the array/object normalisation of lines 43-66:
`Except.error` is a raised exception (caught at lines 77-81, degrading to no
candidates), `.ok none` is empty or unparseable output, `.ok (some items)`
is the decoded candidate list.  Each decoded item then passes through
`validate_and_create_memory`. -/
def extract_memory_from_input (llm_extract : String → Except Unit (Option (List RawItem)))
    (user_input : String) (turn_number : ℤ) : List Memory × Bool :=
  if extraction_gate user_input then ([], false)
  else if question_gate user_input then ([], false)
  else
    match llm_extract (extraction_prompt user_input) with
    | .error _ => ([], true)
    | .ok none => ([], true)
    | .ok (some items) =>
      (items.filterMap (fun item => validate_and_create_memory item turn_number), true)

/-! ## Controller heuristics (`src/core/memory_controller.py`) -/

/-- `self.CONCEPT_MAP` (lines 41-74), in dict insertion order. -/
def concept_map : List (String × List String) :=
  [ ("name", ["name", "called", "call", "identity", "who"]),
    ("identity", ["name", "person", "individual", "who"]),
    ("education", ["study", "student", "college", "university", "school", "learn", "education"]),
    ("degree", ["degree", "course", "major", "field", "program", "pursuing", "studying"]),
    ("year", ["year", "semester", "grade", "level", "class"]),
    ("subjects", ["subjects", "courses", "classes", "modules"]),
    ("hobbies", ["hobbies", "interests", "activities", "pastimes", "free time", "leisure"]),
    ("sports", ["sports", "games", "play", "cricket", "football", "basketball", "tennis"]),
    ("games", ["games", "chess", "video games", "board games", "play", "gaming"]),
    ("preferences", ["like", "love", "enjoy", "prefer", "favorite", "hate", "dislike"]),
    ("location", ["live", "location", "city", "from", "country", "residence"]),
    ("job", ["job", "work", "occupation", "profession", "career", "employer"]),
    ("age", ["age", "old", "years old", "birthday"]),
    ("family", ["family", "parents", "mother", "father", "siblings", "brother", "sister"]),
    ("friends", ["friends", "companions", "buddies", "peers"]),
    ("skills", ["skills", "abilities", "talents", "expertise", "know", "can do"]),
    ("languages", ["languages", "speak", "language", "bilingual", "multilingual"]),
    ("goals", ["goals", "aspirations", "dreams", "ambitions", "want", "wish"]),
    ("plans", ["plans", "intentions", "future", "tomorrow", "next", "will"]) ]

/-- `self.INTENT_MEMORY_MAP` (lines 77-85); the final `[]` is the
`dict.get(intent, [])` default. -/
def intent_memory_map (intent : String) : List String :=
  if intent = "SCHEDULING" then ["preference", "constraint", "commitment"]
  else if intent = "COMMUNICATION" then ["preference", "instruction", "fact"]
  else if intent = "PERSONAL_QUERY" then ["fact", "preference", "commitment"]
  else if intent = "GENERAL_KNOWLEDGE" then []
  else if intent = "COMMAND" then ["instruction", "constraint"]
  else if intent = "PLANNING" then ["preference", "constraint", "commitment"]
  else if intent = "CHIT_CHAT" then []
  else []

def personal_question_keywords : List String :=
  ["my name", "who am i", "what is my", "do you know", "remember",
   "my hobbies", "my interests", "what do i", "what are my",
   "tell me about myself", "what about me", "my favorite",
   "do you know my", "what do you know about me"]

def knowledge_question_keywords : List String :=
  ["which is", "what is", "who is", "where is", "when is",
   "national bird", "national animal", "capital of", "population of"]

/-- `detect_intent` (lines 89-131): first-match-wins keyword cascade over the
lowercased, stripped input. -/
def detect_intent (user_input : String) : String :=
  let s := py_strip (py_lower user_input)
  if personal_question_keywords.any (fun kw => py_contains s kw) then "PERSONAL_QUERY"
  else if knowledge_question_keywords.any (fun kw => py_contains s kw) then "GENERAL_KNOWLEDGE"
  else if (["call", "schedule", "meet", "tomorrow", "time", "calendar", "appointment"] :
      List String).any (fun kw => py_contains s kw) then "SCHEDULING"
  else if (["language", "speak", "talk", "email", "text", "tone", "communicate"] :
      List String).any (fun kw => py_contains s kw) then "COMMUNICATION"
  else if (["always", "never", "remember to", "don\x27t", "do not", "must", "should"] :
      List String).any (fun kw => py_contains s kw) then "COMMAND"
  else if (["plan", "help me", "can you", "i need to", "organize", "create", "make"] :
      List String).any (fun kw => py_contains s kw) then "PLANNING"
  else if (py_split s).length < 4 || ends_with_char s '?' then "CHIT_CHAT"
  else if py_contains s "i " || py_contains s "my " then "PERSONAL_QUERY"
  else "CHIT_CHAT"

def hobby_keywords : List String :=
  ["hobby", "hobbies", "interest", "interests", "activities", "pastime", "pastimes"]

/-- `calculate_semantic_similarity` (lines 150-228).  All arithmetic here is
on rational literals, so the score is an exact `ℚ`. -/
def calculate_semantic_similarity (memory : MemRow) (user_input : String) : ℚ :=
  let user_input_lower := py_lower user_input
  let memory_key := py_lower memory.key
  let memory_value := py_lower memory.value
  let memory_text := memory_key ++ " " ++ memory_value
  let input_words := py_split user_input_lower
  let memory_words := py_split memory_text
  -- 1. direct keyword matching over the two token sets
  let direct_matches : ℕ := count_common input_words memory_words
  let s1 : ℚ := if direct_matches ≠ 0 then min (1/2) (direct_matches * (1/10)) else 0
  -- 2. semantic concept matching (the loop breaks at the first hit)
  let concept_hit := concept_map.any (fun ck =>
    ck.2.any (fun kw => py_contains user_input_lower kw) &&
      (py_contains memory_key ck.1 || py_contains memory_value ck.1 ||
        ck.2.any (fun kw => py_contains memory_text kw)))
  let s2 := s1 + (if concept_hit then 3/5 else 0)
  -- 3. hobby/interest special case
  let hobby_in_input := hobby_keywords.any (fun kw => py_contains user_input_lower kw)
  let hobby_related :=
    decide (memory.type_ = "preference") || py_contains memory_key "sport" ||
      py_contains memory_key "game" || py_contains memory_key "play" ||
      py_contains memory_key "like" || py_contains memory_key "love" ||
      py_contains memory_key "enjoy" || py_contains memory_value "cricket" ||
      py_contains memory_value "chess" || py_contains memory_key "activity"
  let s3 := s2 + (if hobby_in_input && hobby_related then 4/5 else 0)
  -- 4. partial matching for values (break after the first qualifying word)
  let s4 := s3 + (if input_words.any (fun w =>
      decide (3 < py_len w) && (py_contains memory_value w || py_contains memory_key w))
    then 3/10 else 0)
  -- 5. category-based matching (if/elif chain)
  let category_bonus : ℚ :=
    if py_contains user_input_lower "name" &&
        (py_contains memory_key "name" || py_contains user_input_lower memory_value) then 9/10
    else if py_contains user_input_lower "hobby" || py_contains user_input_lower "interest" then
      (if decide (memory.type_ = "preference") || py_contains memory_key "sport" ||
          py_contains memory_key "game" then 7/10 else 0)
    else if py_contains user_input_lower "study" || py_contains user_input_lower "student" then
      (if py_contains memory_text "education" || py_contains memory_text "student" ||
          py_contains memory_text "college" then 4/5 else 0)
    else if (py_contains user_input_lower "like" || py_contains user_input_lower "love" ||
        py_contains user_input_lower "enjoy") && decide (memory.type_ = "preference") then 7/10
    else 0
  min 1 (s4 + category_bonus)

/-- `calculate_memory_decay` (lines 133-148): `elapsed = max(0, turn -
last_used_turn)`; a freshly used memory scores `1.0`; otherwise
`max(0.1, 0.95 ** (elapsed / 100))`, modelled over `ℝ`. -/
noncomputable def calculate_memory_decay (memory : MemRow) (current_turn : ℤ) : ℝ :=
  let turns_since_use : ℤ := max 0 (current_turn - memory.last_used_turn)
  if turns_since_use = 0 then 1
  else max (1/10) ((19/20 : ℝ) ^ ((turns_since_use : ℝ) / 100))

/-- The rational part of `calculate_relevance` (lines 230-243):
`semantic * 0.7 + intent_score * 0.3` with `intent_score = 0.3` when the
memory's type is eligible for the intent. -/
def base_score (memory : MemRow) (user_input intent : String) : ℚ :=
  let semantic_score := calculate_semantic_similarity memory user_input
  let intent_score : ℚ := if (intent_memory_map intent).contains memory.type_ then 3/10 else 0
  semantic_score * (7/10) + intent_score * (3/10)

/-- `calculate_relevance` (lines 230-257): `base * decay * confidence`,
clamped into `[0, 1]`.  `decay` is the `current_decay` the retrieval loop
stamps on the dict before calling. -/
noncomputable def calculate_relevance (memory : MemRow) (user_input intent : String)
    (decay : ℝ) : ℝ :=
  min 1 (max 0 ((base_score memory user_input intent : ℝ) * decay * (memory.confidence : ℝ)))

section RetrievalDefs

open scoped Classical

/-- `retrieve_relevant_memories` (lines 259-312).  Returns the selected
`(memory, retrieval_score)` pairs together with the store after the
read-triggers-write side effect (`update_memory_decay` to `1.0` at the
current turn for each selected memory; the analytics-only
`record_memory_usage` append is not modelled). -/
noncomputable def retrieve_relevant_memories (s : Store) (user_id : String)
    (user_input : String) (current_turn : ℤ) (now : ℤ) :
    List (MemRow × ℝ) × Store :=
  let intent := detect_intent user_input
  let target_types :=
    if intent = "PERSONAL_QUERY" then
      ["fact", "preference", "commitment", "constraint", "instruction"]
    else intent_memory_map intent
  let candidates := get_memories_by_types s user_id target_types 50
  if candidates.isEmpty then ([], s)
  else
    let scored := candidates.filterMap (fun memory =>
      let decay := calculate_memory_decay memory current_turn
      let relevance := calculate_relevance memory user_input intent decay
      if (15/100 : ℝ) < relevance then some (memory, relevance) else none)
    let selected := (scored.mergeSort (fun a b => decide (b.2 ≤ a.2))).take 3
    let s2 := selected.foldl
      (fun st p => update_memory_decay st p.1.memory_id 1 current_turn now) s
    (selected, s2)

end RetrievalDefs

/-! ## Injector (`src/core/memory_injector.py`) -/

/-- `inject_memories` (memory_injector.py lines 3-60), embedded in the shape
of the source: early return on the empty list, then a left-to-right loop that
strips key and value, skips memories where either is empty, formats one
instruction by type (with the `Note:` fallback) and appends it when
non-empty. -/
def inject_memories (retrieved_memories : List MemRow) : List String :=
  if retrieved_memories.isEmpty then []
  else
    retrieved_memories.foldl (fun system_instructions memory =>
      let mem_type := memory.type_
      let key := py_strip memory.key
      let value := py_strip memory.value
      if key = "" ∨ value = "" then system_instructions
      else
        let instruction :=
          if mem_type = "preference" then "User preference (" ++ key ++ "): " ++ value ++ "."
          else if mem_type = "constraint" then
            "Strict Constraint: " ++ key ++ " must occur " ++ value ++ "."
          else if mem_type = "commitment" then "Active Commitment: " ++ value ++ "."
          else if mem_type = "instruction" then "Permanent Instruction: " ++ value ++ "."
          else if mem_type = "fact" then "User Context: " ++ key ++ " is " ++ value ++ "."
          else "Note: " ++ key ++ " is " ++ value ++ "."
        if instruction = "" then system_instructions
        else system_instructions ++ [instruction]) []

/-- Modelled from the spec, section 4.4: the per-kind directive template
table.  One directive per memory, skipping memories whose key or value is
empty (empty after whitespace normalisation, which is the sense in which the
store's free-text fields are compared to the empty string throughout the
spec's pipeline).  Used to state the refinement in claim C7. -/
def spec_directive_template (m : MemRow) : Option String :=
  let key := py_strip m.key
  let value := py_strip m.value
  if key = "" ∨ value = "" then none
  else if m.type_ = "preference" then some ("User preference (" ++ key ++ "): " ++ value ++ ".")
  else if m.type_ = "constraint" then
    some ("Strict Constraint: " ++ key ++ " must occur " ++ value ++ ".")
  else if m.type_ = "commitment" then some ("Active Commitment: " ++ value ++ ".")
  else if m.type_ = "instruction" then some ("Permanent Instruction: " ++ value ++ ".")
  else if m.type_ = "fact" then some ("User Context: " ++ key ++ " is " ++ value ++ ".")
  else some ("Note: " ++ key ++ " is " ++ value ++ ".")

/-! ## Controller orchestration (`process_turn` and `_build_system_prompt`) -/

/-- The general-knowledge base prompt of `_build_system_prompt`
(lines 432-435), whitespace as in the triple-quoted source. -/
def gk_prompt (user_input : String) : String :=
  "You are a knowledgeable AI assistant. The user is asking a general knowledge question.\n" ++
  "            \n" ++
  "    Respond helpfully and accurately to their question about: \"" ++ user_input ++ "\"\n" ++
  "    "

/-- The main base prompt of `_build_system_prompt` (lines 438-462).  The
source has a stray duplicated `else:` at lines 436-437 (a syntax error as
written); the embedding reads it as the single `else:` branch evidently
intended. -/
def main_preamble (turn_number : ℤ) (total_mems : ℕ) : String :=
  "You are a conversational AI assistant supported by an external Long-Term Memory system spanning " ++
  toString turn_number ++ " turns.\n\n" ++
  "ROLE:\n" ++
  "- You are a CONVERSATIONAL PLANNER and SIMULATOR.\n" ++
  "- You do NOT perform physical-world actions (making calls, sending emails, etc.).\n" ++
  "- When users request such actions, you DISCUSS, PLAN, CLARIFY, or CONFIRM them conversationally.\n\n" ++
  "STRICT BEHAVIORAL RULES:\n" ++
  "1. NEVER respond with capability disclaimers like:\n" ++
  "   - \"I cannot make calls\"\n" ++
  "   - \"I am just an AI\"\n" ++
  "2. Treat user requests as logically actionable.\n" ++
  "3. When asked to schedule, call, remind, or plan:\n" ++
  "   - Ask for missing details\n" ++
  "   - Confirm constraints\n" ++
  "   - Propose next steps\n" ++
  "4. Use injected system behavioral rules implicitly.\n" ++
  "5. Do NOT mention memory or past conversations unless explicitly asked.\n" ++
  "6. Be natural, direct, and helpful.\n\n" ++
  "CONTEXT:\n" ++
  "- Current conversation turn: " ++ toString turn_number ++ "\n" ++
  "- Total memories stored: " ++ toString total_mems ++ "\n\n"

def instr_is_personal (i : String) : Bool :=
  py_contains (py_lower i) "name" || py_contains (py_lower i) "location" ||
    py_contains (py_lower i) "job"

def instr_is_preference (i : String) : Bool :=
  py_contains (py_lower i) "prefer" || py_contains (py_lower i) "like" ||
    py_contains (py_lower i) "love" || py_contains (py_lower i) "enjoy"

def instr_is_fact (i : String) : Bool :=
  py_contains (py_lower i) "fact" || py_contains (py_lower i) "study" ||
    py_contains (py_lower i) "student"

/-- One grouped section of the memory block (lines 482-502): a heading and
one `- item` line per instruction, emitted only when the group is
non-empty. -/
def group_block (title : String) (items : List String) : String :=
  if items.isEmpty then ""
  else "\n" ++ title ++ ":\n" ++ String.join (items.map (fun i => "- " ++ i ++ "\n"))

/-- The grouped `WHAT I KNOW ABOUT THE USER` block (lines 464-502).  The loop
classifies each instruction into the first matching bucket, preserving
order. -/
def memory_block (system_instructions : List String) : String :=
  if system_instructions.isEmpty then ""
  else
    let personal_info := system_instructions.filter instr_is_personal
    let preferences := system_instructions.filter
      (fun i => !instr_is_personal i && instr_is_preference i)
    let facts := system_instructions.filter
      (fun i => !instr_is_personal i && !instr_is_preference i && instr_is_fact i)
    let other := system_instructions.filter
      (fun i => !instr_is_personal i && !instr_is_preference i && !instr_is_fact i)
    "\nWHAT I KNOW ABOUT THE USER:\n" ++
      group_block "Personal Information" personal_info ++
      group_block "Preferences & Interests" preferences ++
      group_block "Facts" facts ++
      group_block "Other" other

/-- The query-specific guidance notes of lines 504-510. -/
def guidance_note (user_input_lower : String) : String :=
  if py_contains user_input_lower "hobby" || py_contains user_input_lower "interest" then
    "\nNOTE: The user is asking about hobbies/interests. Mention relevant preferences if known.\n"
  else if py_contains user_input_lower "name" then
    "\nNOTE: The user is asking about their name. Use the name you know.\n"
  else if py_contains user_input_lower "study" || py_contains user_input_lower "student" then
    "\nNOTE: The user is asking about studies/education. Mention relevant education facts.\n"
  else ""

/-- `_build_system_prompt` (lines 422-514): general-knowledge questions get a
short helper prompt; everything else gets the behavioral preamble, the
grouped memory block, query-specific guidance and the final respond line. -/
def build_system_prompt (system_instructions : List String) (turn_number : ℤ)
    (user_input : String) (total_mems : ℕ) : String :=
  let user_input_lower := py_lower user_input
  let intent := detect_intent user_input
  if intent = "GENERAL_KNOWLEDGE" then gk_prompt user_input
  else
    main_preamble turn_number total_mems ++
    memory_block system_instructions ++
    guidance_note user_input_lower ++
    "\nRespond to the user\x27s input: \"" ++ user_input ++ "\""

/-- The `TurnResult` record assembled at lines 392-408.  `processing_time`
(wall clock) is abstracted to `0`; `avg_relevance` is modelled without the
3-decimal rounding. -/
structure TurnResult where
  response : String
  extracted_memories : List Memory
  retrieved_memories : List (MemRow × ℝ)
  intent : String
  processing_time : ℚ
  turn_number : ℤ
  metrics_extracted : ℕ
  metrics_retrieved : ℕ
  metrics_avg_relevance : ℝ

def question_starters : List String :=
  ["what", "who", "where", "when", "why", "how", "do you", "can you", "will you"]

/-- The controller-level extraction gating of `process_turn` lines 327-356:
only factual statements, or personal statements that are not questions, are
sent to the extractor. -/
def should_run_extraction (user_input : String) : Bool :=
  let user_input_lower := py_strip (py_lower user_input)
  let is_personal_question :=
    py_contains user_input_lower "my " || py_contains user_input_lower "i " ||
      py_contains user_input_lower "me "
  let is_factual_statement :=
    decide (3 ≤ (py_split user_input).length) &&
      !ends_with_char user_input_lower '?' &&
      !question_starters.any (fun st => starts_with user_input_lower st)
  is_factual_statement || (is_personal_question && !ends_with_char user_input_lower '?')

section ProcessTurnDefs

open scoped Classical

/-- `process_turn` (memory_controller.py lines 314-420).  The pipeline is
EXTRACT (internal failures degrade to the empty candidate list inside the
extractor / the surrounding `try`) → PERSIST (one `add_memory` per candidate,
fresh ids supplied by `fresh_ids`) → RETRIEVE → INJECT → build the system
prompt → RESPOND.  The response-generation call at line 387 is NOT wrapped in
any `try/except`: an `Except.error` from `llm_response` propagates to the
caller of `process_turn`. -/
noncomputable def process_turn (llm_response : String → String → Except Unit String)
    (llm_extract : String → Except Unit (Option (List RawItem)))
    (s : Store) (user_id : String) (user_input : String) (turn_number : ℤ) (now : ℤ)
    (fresh_ids : ℕ → String) : Except Unit (TurnResult × Store) :=
  let extracted_memories :=
    if should_run_extraction user_input then
      (extract_memory_from_input llm_extract user_input turn_number).1
    else []
  let s1 := (extracted_memories.foldl
    (fun (acc : Store × ℕ) mem =>
      ((add_memory acc.1 user_id mem.type_ mem.key mem.value mem.confidence
          turn_number now (fresh_ids acc.2)).2, acc.2 + 1))
    (s, 0)).1
  let retrieval := retrieve_relevant_memories s1 user_id user_input turn_number now
  let retrieved_memories := retrieval.1
  let s2 := retrieval.2
  let system_instructions := inject_memories (retrieved_memories.map (fun p => p.1))
  let system_prompt :=
    build_system_prompt system_instructions turn_number user_input (total_memories s2 user_id)
  match llm_response system_prompt user_input with
  | .error e => .error e
  | .ok response =>
    .ok ({ response := response
           extracted_memories := extracted_memories
           retrieved_memories := retrieved_memories
           intent := detect_intent user_input
           processing_time := 0
           turn_number := turn_number
           metrics_extracted := extracted_memories.length
           metrics_retrieved := retrieved_memories.length
           metrics_avg_relevance :=
             (retrieved_memories.map (fun p => p.2)).sum /
               (max retrieved_memories.length 1 : ℕ) }, s2)

end ProcessTurnDefs

/-- Number of stored rows for one `(owner_id, kind, key)` identity; the
schema's `UNIQUE(user_id, type, key)` constraint keeps this at most `1`. -/
def key_count (s : Store) (user_id type_ key : String) : ℕ :=
  (s.filter (row_matches user_id type_ key)).length

/-! ## Concrete fixtures used by individual claims -/

/-- A stored preference row, freshly used at turn 5: owner `u1`,
`interest = chess`, confidence `0.9`. -/
def c1_chess_row : MemRow :=
  { memory_id := "mem_1", user_id := "u1", type_ := "preference", key := "interest",
    value := "chess", confidence := 9/10, source_turn := 5, last_used_turn := 5,
    decay_score := 1, created_at := 0, updated_at := 0 }

/-- An existing `fact/name` row with value `"A"` and confidence `0.9`. -/
def c3_row : MemRow :=
  { memory_id := "mem_a", user_id := "u1", type_ := "fact", key := "name",
    value := "A", confidence := 9/10, source_turn := 1, last_used_turn := 1,
    decay_score := 3/10, created_at := 0, updated_at := 0 }

/-- An existing `fact/name` row used by the C10 witness. -/
def c10_row : MemRow :=
  { memory_id := "mem_b", user_id := "u2", type_ := "fact", key := "name",
    value := "Ada", confidence := 9/10, source_turn := 2, last_used_turn := 4,
    decay_score := 7/10, created_at := 3, updated_at := 3 }

/-- A model candidate with an out-of-enum kind `"query"`, used by C5. -/
def c5_query_item : RawItem :=
  { item_type := "query", item_key := "topic", item_value := some "weather",
    item_confidence := some (9/10) }

/-- The same candidate fields with the out-of-enum kind `"custom"`. -/
def c5_custom_item : RawItem :=
  { item_type := "custom", item_key := "topic", item_value := some "weather",
    item_confidence := some (9/10) }

/-- A candidate used by the C5 witness. -/
def c5_witness_item : RawItem :=
  { item_type := "vibe", item_key := "likes_music", item_value := some "jazz",
    item_confidence := some (9/10) }

/-- The spec's confidence-floor example: `{"type":"fact","key":"x","value":"y",
"confidence":0.3}`. -/
def c6_item : RawItem :=
  { item_type := "fact", item_key := "x", item_value := some "yy",
    item_confidence := some (3/10) }

/-- A preference row used by the C8 witness, last used at turn 0. -/
def c8_row : MemRow :=
  { memory_id := "mem_8", user_id := "u1", type_ := "preference", key := "interest",
    value := "chess", confidence := 9/10, source_turn := 0, last_used_turn := 0,
    decay_score := 1, created_at := 0, updated_at := 0 }

/-! # Theorems

First some reusable facts about the string primitives and the list-backed
store, then one theorem per claim (with its witness or counterexample where
required).
-/

/-! ## Helper lemmas -/

theorem dropWhile_length_le {α : Type} (p : α → Bool) (l : List α) :
    (l.dropWhile p).length ≤ l.length := by
  induction l with
  | nil => simp
  | cons a t ih =>
    by_cases hp : p a
    · rw [List.dropWhile_cons_of_pos hp]
      exact Nat.le_trans ih (Nat.le_succ _)
    · rw [List.dropWhile_cons_of_neg hp]

theorem strip_list_length_le (l : List Char) : (strip_list l).length ≤ l.length := by
  unfold strip_list
  calc ((l.dropWhile is_ws).reverse.dropWhile is_ws).reverse.length
      = ((l.dropWhile is_ws).reverse.dropWhile is_ws).length := by
        rw [List.length_reverse]
    _ ≤ (l.dropWhile is_ws).reverse.length := dropWhile_length_le _ _
    _ = (l.dropWhile is_ws).length := by rw [List.length_reverse]
    _ ≤ l.length := dropWhile_length_le _ _

theorem strip_list_of_all_ws {l : List Char} (h : ∀ c ∈ l, is_ws c) :
    strip_list l = [] := by
  unfold strip_list
  have h1 : l.dropWhile is_ws = [] := List.dropWhile_eq_nil_iff.mpr h
  simp [h1]

theorem dropWhile_getLast? {l : List Char} (h : l.getLast? = some '?') :
    (l.dropWhile is_ws).getLast? = some '?' := by
  induction l with
  | nil => simp at h
  | cons c t ih =>
    by_cases hws : is_ws c
    · rw [List.dropWhile_cons_of_pos hws]
      rcases t with _ | ⟨d, t'⟩
      · simp at h
        subst h
        simp [is_ws] at hws
      · rw [List.getLast?_cons_cons] at h
        exact ih h
    · rwa [List.dropWhile_cons_of_neg hws]

theorem strip_list_getLast? {l : List Char} (h : l.getLast? = some '?') :
    (strip_list l).getLast? = some '?' := by
  unfold strip_list
  have h1 : (l.dropWhile is_ws).getLast? = some '?' := dropWhile_getLast? h
  have h2 : (l.dropWhile is_ws).reverse.head? = some '?' := by
    rwa [List.head?_reverse]
  rcases hrev : (l.dropWhile is_ws).reverse with _ | ⟨c, t⟩
  · rw [hrev] at h2; simp at h2
  · rw [hrev] at h2
    simp at h2
    subst h2
    rw [List.dropWhile_cons_of_neg (by simp [is_ws])]
    rw [← hrev, List.reverse_reverse]
    exact h1

theorem find?_map_pres {α : Type} {p : α → Bool} {f : α → α}
    (hf : ∀ a, p (f a) = p a) (l : List α) :
    (l.map f).find? p = (l.find? p).map f := by
  induction l with
  | nil => rfl
  | cons a t ih =>
    by_cases hp : p a
    · simp [List.find?_cons, hf, hp]
    · simp only [List.map_cons, List.find?_cons, hf a, hp]
      simpa using ih

theorem filter_length_map_pres {α : Type} {p : α → Bool} {f : α → α}
    (hf : ∀ a, p (f a) = p a) (l : List α) :
    ((l.map f).filter p).length = (l.filter p).length := by
  induction l with
  | nil => rfl
  | cons a t ih =>
    by_cases hp : p a <;> simp [List.filter_cons, hf, hp, ih]

theorem find?_append_of_none {α : Type} {p : α → Bool} {l₁ l₂ : List α}
    (h : l₁.find? p = none) : (l₁ ++ l₂).find? p = l₂.find? p := by
  induction l₁ with
  | nil => rfl
  | cons a t ih =>
    rw [List.find?_cons] at h
    by_cases hp : p a
    · simp [hp] at h
    · simp only [List.cons_append, List.find?_cons, hp, cond_false] at *
      exact ih h

theorem filter_eq_nil_of_find?_none {α : Type} {p : α → Bool} {l : List α}
    (h : l.find? p = none) : l.filter p = [] := by
  rw [List.find?_eq_none] at h
  exact List.filter_eq_nil_iff.mpr h

theorem filter_length_pos_of_find?_some {α : Type} {p : α → Bool} {l : List α} {a : α}
    (h : l.find? p = some a) : 0 < (l.filter p).length := by
  have hmem : a ∈ l := List.mem_of_find?_eq_some h
  have hp : p a := List.find?_some h
  have : a ∈ l.filter p := List.mem_filter.mpr ⟨hmem, hp⟩
  exact List.length_pos.mpr (List.ne_nil_of_mem this)

theorem append_dot_ne_empty (x : String) : x ++ "." ≠ "" := by
  intro h
  apply_fun String.length at h
  rw [String.length_append] at h
  have h1 : (("." : String)).length = 1 := rfl
  have h2 : (("" : String)).length = 0 := rfl
  omega

theorem inject_fold_eq (l : List MemRow) (acc : List String) :
    List.foldl (fun system_instructions memory =>
      let mem_type := memory.type_
      let key := py_strip memory.key
      let value := py_strip memory.value
      if key = "" ∨ value = "" then system_instructions
      else
        let instruction :=
          if mem_type = "preference" then "User preference (" ++ key ++ "): " ++ value ++ "."
          else if mem_type = "constraint" then
            "Strict Constraint: " ++ key ++ " must occur " ++ value ++ "."
          else if mem_type = "commitment" then "Active Commitment: " ++ value ++ "."
          else if mem_type = "instruction" then "Permanent Instruction: " ++ value ++ "."
          else if mem_type = "fact" then "User Context: " ++ key ++ " is " ++ value ++ "."
          else "Note: " ++ key ++ " is " ++ value ++ "."
        if instruction = "" then system_instructions
        else system_instructions ++ [instruction]) acc l
    = acc ++ l.filterMap spec_directive_template := by
  induction l generalizing acc with
  | nil => simp
  | cons m t ih =>
    rw [List.foldl_cons, ih, List.filterMap_cons]
    by_cases h1 : py_strip m.key = "" ∨ py_strip m.value = ""
    · simp [spec_directive_template, if_pos h1, h1]
    · simp only [spec_directive_template, if_neg h1]
      split_ifs <;> first
        | exact absurd (by assumption) (append_dot_ne_empty _)
        | simp [List.append_assoc]

theorem row_matches_upd (u ty k v : String) (c : ℚ) (n : ℤ) (mid : String) (r : MemRow) :
    row_matches u ty k (if r.memory_id = mid then merge_row v c n r else r) =
      row_matches u ty k r := by
  split <;> rfl

theorem add_memory_of_none {s : Store} {u ty k : String} (v : String) (c : ℚ) (t now : ℤ)
    (fid : String) (h : find_existing s u ty k = none) :
    add_memory s u ty k v c t now fid =
      (fid, s ++ [{ memory_id := fid, user_id := u, type_ := ty, key := k, value := v,
                    confidence := c, source_turn := t, last_used_turn := t,
                    decay_score := 1, created_at := now, updated_at := now }]) := by
  simp [add_memory, h]

theorem add_memory_of_merge {s : Store} {u ty k : String} {ex : MemRow} {c : ℚ}
    (v : String) (t now : ℤ) (fid : String)
    (h : find_existing s u ty k = some ex) (hge : ex.confidence * (4/5) ≤ c) :
    add_memory s u ty k v c t now fid =
      (ex.memory_id,
        s.map (fun r => if r.memory_id = ex.memory_id then merge_row v c now r else r)) := by
  simp [add_memory, h, hge]

theorem add_memory_of_discard {s : Store} {u ty k : String} {ex : MemRow} {c : ℚ}
    (v : String) (t now : ℤ) (fid : String)
    (h : find_existing s u ty k = some ex) (hlt : c < ex.confidence * (4/5)) :
    add_memory s u ty k v c t now fid = (ex.memory_id, s) := by
  simp [add_memory, h, not_le.mpr hlt]

theorem find_existing_after_merge {s : Store} {u ty k : String} {ex : MemRow}
    (v : String) (c : ℚ) (now : ℤ) (h : find_existing s u ty k = some ex) :
    find_existing
      (s.map (fun r => if r.memory_id = ex.memory_id then merge_row v c now r else r)) u ty k =
      some (merge_row v c now ex) := by
  unfold find_existing at *
  rw [find?_map_pres (fun r => row_matches_upd u ty k v c now ex.memory_id r) s, h]
  simp

theorem key_count_after_upd {s : Store} (u ty k v : String) (c : ℚ) (now : ℤ) (mid : String) :
    key_count (s.map (fun r => if r.memory_id = mid then merge_row v c now r else r)) u ty k =
      key_count s u ty k :=
  filter_length_map_pres (fun r => row_matches_upd u ty k v c now mid r) s

theorem key_count_append_match {s : Store} {u ty k : String} {r : MemRow}
    (hr : row_matches u ty k r = true) :
    key_count (s ++ [r]) u ty k = key_count s u ty k + 1 := by
  simp [key_count, List.filter_append, hr]

theorem key_count_zero_of_none {s : Store} {u ty k : String}
    (h : find_existing s u ty k = none) : key_count s u ty k = 0 := by
  simp [key_count, filter_eq_nil_of_find?_none h]

theorem key_count_pos_of_some {s : Store} {u ty k : String} {ex : MemRow}
    (h : find_existing s u ty k = some ex) : 0 < key_count s u ty k :=
  filter_length_pos_of_find?_some h

/-- Claim C7: the injection operation is a deterministic pure function: on
any list of memories it emits, for each memory with non-empty key and value,
exactly one directive string from the fixed per-kind template (preference,
constraint, commitment, instruction, fact, and the `Note:` fallback for any
other kind), skipping memories with empty key or value; calling it twice on
the same list yields identical output, and the empty list maps to the empty
list. -/
theorem inject_memories_pure_template (l : List MemRow) :
    inject_memories l = inject_memories l ∧
    inject_memories ([] : List MemRow) = [] ∧
    inject_memories l = l.filterMap spec_directive_template := by
  refine ⟨rfl, rfl, ?_⟩
  cases l with
  | nil => rfl
  | cons m t =>
    have h := inject_fold_eq (m :: t) []
    simp only [List.nil_append] at h
    simpa [inject_memories] using h

/-- Claim C10: when an upsert for an existing `(owner_id, kind, key)` is
discarded because the new confidence is below `0.8` times the existing
confidence, the operation still returns the existing record's id without
error, and the stored state — hence every field of the stored record — is
left completely unchanged. -/
theorem add_memory_discard_frame (s : Store) (u ty k v fid : String) (c : ℚ) (t now : ℤ)
    (ex : MemRow) (hfind : find_existing s u ty k = some ex)
    (hlow : c < ex.confidence * (4/5)) :
    add_memory s u ty k v c t now fid = (ex.memory_id, s) ∧
    find_existing (add_memory s u ty k v c t now fid).2 u ty k = some ex := by
  have h := add_memory_of_discard v t now fid hfind hlow
  exact ⟨h, by rw [h]; exact hfind⟩

/-- Witness for C10: a concrete store where an upsert at confidence `0.5`
against an existing confidence `0.9` (threshold `0.72`) is discarded. -/
theorem add_memory_discard_frame_witness :
    find_existing [c10_row] "u2" "fact" "name" = some c10_row ∧
    (1/2 : ℚ) < c10_row.confidence * (4/5) ∧
    (add_memory [c10_row] "u2" "fact" "name" "Grace" (1/2) 9 9 "mem_x" =
        (c10_row.memory_id, [c10_row]) ∧
      find_existing (add_memory [c10_row] "u2" "fact" "name" "Grace" (1/2) 9 9 "mem_x").2
          "u2" "fact" "name" = some c10_row) :=
  ⟨rfl, by norm_num [c10_row],
    add_memory_discard_frame [c10_row] "u2" "fact" "name" "Grace" "mem_x" (1/2) 9 9 c10_row
      rfl (by norm_num [c10_row])⟩

/-- Counterexample to claim C3 as stated: the claim says `value` is replaced
only if the new confidence is at least the existing one, but on the store
holding `c3_row` (value `"A"`, confidence `0.9`) an upsert with value `"B"`
and the strictly lower confidence `0.8` (which clears the `0.72 = 0.9 × 0.8`
threshold) does replace the value. -/
theorem add_memory_low_conf_still_replaces_value :
    (8/10 : ℚ) < c3_row.confidence ∧
    ((add_memory [c3_row] "u1" "fact" "name" "B" (8/10) 7 7 "mem_new").2.map MemRow.value) =
      ["B"] := by
  have hfind : find_existing [c3_row] "u1" "fact" "name" = some c3_row := rfl
  have hge : c3_row.confidence * (4/5) ≤ (8/10 : ℚ) := by norm_num [c3_row]
  refine ⟨by norm_num [c3_row], ?_⟩
  rw [add_memory_of_merge "B" 7 7 "mem_new" hfind hge]
  simp [c3_row, merge_row]

/-- Claim C3 (amended): on an upsert onto an existing `(owner_id, kind, key)`
row, a new confidence below `0.8` times the existing one is discarded with
the row kept; otherwise the row is merged with `value` replaced by the new
value unconditionally, `confidence := max(existing, new)` and
`decay_score := max(existing_decay, 0.5)`. -/
theorem add_memory_merge_policy (s : Store) (u ty k v fid : String) (c : ℚ) (t now : ℤ)
    (ex : MemRow) (hfind : find_existing s u ty k = some ex) :
    (c < ex.confidence * (4/5) → add_memory s u ty k v c t now fid = (ex.memory_id, s)) ∧
    (ex.confidence * (4/5) ≤ c →
      (add_memory s u ty k v c t now fid).1 = ex.memory_id ∧
      find_existing (add_memory s u ty k v c t now fid).2 u ty k =
        some { ex with
          value := v
          confidence := max ex.confidence c
          decay_score := max ex.decay_score (1/2)
          updated_at := now }) := by
  constructor
  · intro hlt
    exact add_memory_of_discard v t now fid hfind hlt
  · intro hge
    rw [add_memory_of_merge v t now fid hfind hge]
    exact ⟨rfl, find_existing_after_merge v c now hfind⟩

/-- Witness for the amended C3: a merge at confidence `0.95` over an existing
`0.9` replaces the value and takes the larger confidence. -/
theorem add_memory_merge_policy_witness :
    find_existing [c3_row] "u1" "fact" "name" = some c3_row ∧
    c3_row.confidence * (4/5) ≤ (95/100 : ℚ) ∧
    ((add_memory [c3_row] "u1" "fact" "name" "B" (95/100) 7 8 "mem_n").1 = c3_row.memory_id ∧
      find_existing (add_memory [c3_row] "u1" "fact" "name" "B" (95/100) 7 8 "mem_n").2
          "u1" "fact" "name" =
        some { c3_row with
          value := "B"
          confidence := max c3_row.confidence (95/100)
          decay_score := max c3_row.decay_score (1/2)
          updated_at := 8 }) :=
  ⟨rfl, by norm_num [c3_row],
    (add_memory_merge_policy [c3_row] "u1" "fact" "name" "B" "mem_n" (95/100) 7 8 c3_row
      rfl).2 (by norm_num [c3_row])⟩

/-- Claim C9: upsert is idempotent with respect to value and confidence: on
any store satisfying the schema's at-most-one-row-per-key constraint,
upserting the same `(owner_id, kind, key, value, confidence)` twice leaves
exactly one stored row for that key, and the row's `value` and `confidence`
after the second call equal their values after the first. -/
theorem add_memory_idempotent (s : Store) (u ty k v f1 f2 : String) (c : ℚ) (t n1 n2 : ℤ)
    (hcount : key_count s u ty k ≤ 1) :
    key_count (add_memory (add_memory s u ty k v c t n1 f1).2 u ty k v c t n2 f2).2 u ty k = 1 ∧
    ∃ r1 r2,
      find_existing (add_memory s u ty k v c t n1 f1).2 u ty k = some r1 ∧
      find_existing (add_memory (add_memory s u ty k v c t n1 f1).2 u ty k v c t n2 f2).2
        u ty k = some r2 ∧
      r2.value = r1.value ∧ r2.confidence = r1.confidence := by
  cases hfind : find_existing s u ty k with
  | none =>
    rw [add_memory_of_none v c t n1 f1 hfind]
    set nr : MemRow :=
      { memory_id := f1, user_id := u, type_ := ty, key := k, value := v,
        confidence := c, source_turn := t, last_used_turn := t,
        decay_score := 1, created_at := n1, updated_at := n1 } with hnr
    have hmatch : row_matches u ty k nr = true := by simp [row_matches, hnr]
    have hfind1 : find_existing (s ++ [nr]) u ty k = some nr := by
      unfold find_existing
      rw [find?_append_of_none hfind]
      simp [List.find?, hmatch]
    have hcount1 : key_count (s ++ [nr]) u ty k = 1 := by
      rw [key_count_append_match hmatch, key_count_zero_of_none hfind]
    by_cases h2 : nr.confidence * (4/5) ≤ c
    · rw [add_memory_of_merge v t n2 f2 hfind1 h2]
      refine ⟨?_, nr, merge_row v c n2 nr, hfind1, find_existing_after_merge v c n2 hfind1,
        rfl, ?_⟩
      · rw [key_count_after_upd]
        exact hcount1
      · show max nr.confidence c = nr.confidence
        simp [hnr]
    · rw [add_memory_of_discard v t n2 f2 hfind1 (not_le.mp h2)]
      exact ⟨hcount1, nr, nr, hfind1, hfind1, rfl, rfl⟩
  | some ex =>
    have hcount0 : key_count s u ty k = 1 :=
      Nat.le_antisymm hcount (key_count_pos_of_some hfind)
    by_cases h1 : ex.confidence * (4/5) ≤ c
    · rw [add_memory_of_merge v t n1 f1 hfind h1]
      set ex1 := merge_row v c n1 ex with hex1
      have hfind1 : find_existing
          (s.map (fun r => if r.memory_id = ex.memory_id then merge_row v c n1 r else r))
          u ty k = some ex1 := find_existing_after_merge v c n1 hfind
      have hcount1 : key_count
          (s.map (fun r => if r.memory_id = ex.memory_id then merge_row v c n1 r else r))
          u ty k = 1 := by rw [key_count_after_upd]; exact hcount0
      by_cases h2 : ex1.confidence * (4/5) ≤ c
      · rw [add_memory_of_merge v t n2 f2 hfind1 h2]
        refine ⟨?_, ex1, merge_row v c n2 ex1, hfind1,
          find_existing_after_merge v c n2 hfind1, rfl, ?_⟩
        · rw [key_count_after_upd]
          exact hcount1
        · show max ex1.confidence c = ex1.confidence
          have : ex1.confidence = max ex.confidence c := rfl
          rw [this, max_assoc, max_self]
      · rw [add_memory_of_discard v t n2 f2 hfind1 (not_le.mp h2)]
        exact ⟨hcount1, ex1, ex1, hfind1, hfind1, rfl, rfl⟩
    · rw [add_memory_of_discard v t n1 f1 hfind (not_le.mp h1)]
      rw [add_memory_of_discard v t n2 f2 hfind (not_le.mp h1)]
      exact ⟨hcount0, ex, ex, hfind, hfind, rfl, rfl⟩

/-- Witness for C9: a double upsert of the same tuple into the empty store
leaves exactly one row with unchanged value and confidence. -/
theorem add_memory_idempotent_witness :
    key_count ([] : Store) "u1" "preference" "interest" ≤ 1 ∧
    (key_count (add_memory (add_memory [] "u1" "preference" "interest" "chess" (9/10) 2 2
        "mem_p").2 "u1" "preference" "interest" "chess" (9/10) 2 3 "mem_q").2
        "u1" "preference" "interest" = 1 ∧
      ∃ r1 r2,
        find_existing (add_memory [] "u1" "preference" "interest" "chess" (9/10) 2 2
          "mem_p").2 "u1" "preference" "interest" = some r1 ∧
        find_existing (add_memory (add_memory [] "u1" "preference" "interest" "chess" (9/10) 2 2
          "mem_p").2 "u1" "preference" "interest" "chess" (9/10) 2 3 "mem_q").2
          "u1" "preference" "interest" = some r2 ∧
        r2.value = r1.value ∧ r2.confidence = r1.confidence) :=
  ⟨by decide,
    add_memory_idempotent [] "u1" "preference" "interest" "chess" "mem_p" "mem_q" (9/10) 2 2 3
      (by decide)⟩

/-- Claim C4: for every input that is empty, whitespace-only, shorter than 3
characters, or ending in a question mark, the extraction operation returns an
empty sequence and the external model-call capability is never invoked. -/
theorem extraction_gate_blocks (llm : String → Except Unit (Option (List RawItem)))
    (user_input : String) (turn_number : ℤ)
    (h : user_input = "" ∨ py_len user_input < 3 ∨
      (∀ c ∈ user_input.toList, is_ws c) ∨ user_input.toList.getLast? = some '?') :
    extract_memory_from_input llm user_input turn_number = ([], false) := by
  rcases h with h | h | h | h
  · subst h
    rfl
  · have hlt : py_len (py_strip user_input) < 3 :=
      lt_of_le_of_lt (strip_list_length_le user_input.toList) h
    simp [extract_memory_from_input, extraction_gate, hlt]
  · have hnil : strip_list user_input.toList = [] := strip_list_of_all_ws h
    have hlt : py_len (py_strip user_input) < 3 := by
      show (strip_list user_input.toList).length < 3
      rw [hnil]
      decide
    simp [extract_memory_from_input, extraction_gate, hlt]
  · by_cases hg : extraction_gate user_input = true
    · simp [extract_memory_from_input, hg]
    · have hq : question_gate user_input = true := by
        show decide ((py_strip user_input).toList.getLast? = some '?') = true
        exact decide_eq_true (strip_list_getLast? h)
      simp [extract_memory_from_input, hg, hq]

/-- Witness for C4: the spec's example input `"What is my name?"` ends in a
question mark, so extraction yields zero candidates and the model capability
is not called. -/
theorem extraction_gate_blocks_witness :
    ("What is my name?" : String).toList.getLast? = some '?' ∧
    extract_memory_from_input (fun _ => Except.ok none) "What is my name?" 5 = ([], false) :=
  ⟨by decide,
    extraction_gate_blocks (fun _ => Except.ok none) "What is my name?" 5
      (Or.inr (Or.inr (Or.inr (by decide))))⟩

/-- Counterexample to claim C5 as stated: a model candidate of kind `"query"`
(outside the closed enum) whose key, value and confidence pass every other
check is rejected outright by the validator, while the identical fields under
the out-of-enum kind `"custom"` are accepted and remapped to `fact` — so a
candidate CAN be rejected on account of its kind alone. -/
theorem query_kind_candidate_rejected :
    validate_and_create_memory c5_query_item 3 = none ∧
    validate_and_create_memory c5_custom_item 3 =
      some { type_ := "fact", key := "topic", value := "weather",
             confidence := max (1/2) (min 1 (9/10)), source_turn := 3 } := by
  constructor
  · norm_num +decide [validate_and_create_memory, c5_query_item]
  · norm_num +decide [validate_and_create_memory, c5_custom_item, valid_types,
      placeholder_values_first, placeholder_values_second, heuristic_kind]

/-- Claim C5 (amended): a model candidate whose kind is outside the closed
enum and also not `"query"`/`"question"` (which the validator rejects
outright), and whose key, value and confidence pass the other checks, is
never rejected: its kind is remapped by the key heuristics (name/location/job
to `fact`, like/prefer/hate to `preference`) and defaults to `fact`
otherwise. -/
theorem kind_remap_never_rejects (item : RawItem) (turn_number : ℤ) (v0 : String)
    (hv : item.item_value = some v0)
    (htype_ne : ¬ py_strip (py_lower item.item_type) = "")
    (hkey_ne : ¬ py_strip item.item_key = "")
    (hval_ne : ¬ py_strip v0 = "")
    (hconf : 1/2 ≤ item.item_confidence.getD (4/5))
    (hph1 : ¬ placeholder_values_first.contains (py_lower (py_strip v0)) = true)
    (henum : ¬ valid_types.contains (py_strip (py_lower item.item_type)) = true)
    (hq1 : ¬ py_strip (py_lower item.item_type) = "query")
    (hq2 : ¬ py_strip (py_lower item.item_type) = "question")
    (hlen : 2 ≤ py_len (py_strip v0))
    (hph2 : ¬ placeholder_values_second.contains (py_lower (py_strip v0)) = true) :
    validate_and_create_memory item turn_number =
      some { type_ := heuristic_kind (py_strip item.item_key)
             key := py_strip item.item_key
             value := py_strip v0
             confidence := max (1/2) (min 1 (item.item_confidence.getD (4/5)))
             source_turn := turn_number } := by
  simp only [validate_and_create_memory, hv]
  rw [if_neg (by push_neg; exact ⟨htype_ne, hkey_ne, hval_ne⟩)]
  rw [if_neg (fun hor => hor.elim (fun h1 => absurd hconf (not_le.mpr h1)) hph1)]
  rw [if_neg (fun hand => hand.2.elim hq1 hq2)]
  rw [if_neg (not_lt.mpr hlen)]
  rw [if_neg hph2]
  rw [if_neg henum]

/-- Witness for the amended C5: the out-of-enum kind `"vibe"` with key
`"likes_music"` is accepted and remapped to `preference` by the
like/prefer/hate key heuristic. -/
theorem kind_remap_never_rejects_witness :
    c5_witness_item.item_value = some "jazz" ∧
    ¬ valid_types.contains (py_strip (py_lower c5_witness_item.item_type)) = true ∧
    ¬ py_strip (py_lower c5_witness_item.item_type) = "query" ∧
    ¬ py_strip (py_lower c5_witness_item.item_type) = "question" ∧
    (1/2 : ℚ) ≤ c5_witness_item.item_confidence.getD (4/5) ∧
    validate_and_create_memory c5_witness_item 7 =
      some { type_ := "preference", key := "likes_music", value := "jazz",
             confidence := max (1/2) (min 1 (9/10)), source_turn := 7 } := by
  refine ⟨rfl, by decide, by decide, by decide, by norm_num [c5_witness_item], ?_⟩
  have h := kind_remap_never_rejects c5_witness_item 7 "jazz" rfl (by decide) (by decide)
    (by decide) (by norm_num [c5_witness_item]) (by decide) (by decide) (by decide)
    (by decide) (by decide) (by decide)
  exact h.trans rfl

/-- Claim C6: per-candidate validation rejects every candidate whose supplied
confidence is below `0.5`, and every candidate that survives validation has
its confidence clamped into `[0.5, 1.0]`. -/
theorem confidence_floor_and_clamp :
    (∀ (item : RawItem) (turn : ℤ) (c : ℚ), item.item_confidence = some c → c < 1/2 →
      validate_and_create_memory item turn = none) ∧
    (∀ (item : RawItem) (turn : ℤ) (m : Memory),
      validate_and_create_memory item turn = some m →
      1/2 ≤ m.confidence ∧ m.confidence ≤ 1) := by
  constructor
  · intro item turn c hc hlt
    rcases hval : item.item_value with _ | v0
    · simp [validate_and_create_memory, hval]
    · by_cases hA : (py_strip (py_lower item.item_type) = "" ∨ py_strip item.item_key = "" ∨
        py_strip v0 = "")
      · simp [validate_and_create_memory, hval, hA]
      · simp only [validate_and_create_memory, hval, hc, Option.getD_some]
        rw [if_neg hA, if_pos (Or.inl hlt)]
  · intro item turn m h
    rcases hval : item.item_value with _ | v0
    · simp [validate_and_create_memory, hval] at h
    · simp only [validate_and_create_memory, hval] at h
      split_ifs at h
      all_goals rw [Option.some.injEq] at h
      all_goals subst h
      all_goals exact ⟨le_max_left _ _, max_le (by norm_num) (min_le_left _ _)⟩

/-- Witness for C6: the spec's example candidate with confidence `0.3` is
rejected by the `0.5` floor. -/
theorem confidence_floor_and_clamp_witness :
    c6_item.item_confidence = some (3/10) ∧ (3/10 : ℚ) < 1/2 ∧
    validate_and_create_memory c6_item 5 = none :=
  ⟨rfl, by norm_num, confidence_floor_and_clamp.1 c6_item 5 (3/10) rfl (by norm_num)⟩

/-! ## Decay lemmas (claim C8) -/

theorem semantic_similarity_le_one (m : MemRow) (user_input : String) :
    calculate_semantic_similarity m user_input ≤ 1 := by
  simp only [calculate_semantic_similarity]
  exact min_le_left _ _

theorem base_score_le_one (m : MemRow) (user_input intent : String) :
    base_score m user_input intent ≤ 1 := by
  unfold base_score
  have h1 : calculate_semantic_similarity m user_input ≤ 1 :=
    semantic_similarity_le_one m user_input
  have h2 : (if (intent_memory_map intent).contains m.type_ then (3/10 : ℚ) else 0) ≤ 3/10 := by
    split <;> norm_num
  nlinarith

theorem calculate_memory_decay_eq (m : MemRow) (t : ℤ) :
    calculate_memory_decay m t =
      max (1/10) ((19/20 : ℝ) ^ (((max 0 (t - m.last_used_turn) : ℤ) : ℝ) / 100)) := by
  simp only [calculate_memory_decay]
  split_ifs with h
  · rw [h]
    norm_num [Real.rpow_zero]
  · rfl

theorem decay_exponent_nonneg (m : MemRow) (t : ℤ) :
    (0 : ℝ) ≤ ((max 0 (t - m.last_used_turn) : ℤ) : ℝ) / 100 := by
  apply div_nonneg _ (by norm_num)
  exact_mod_cast le_max_left (0 : ℤ) (t - m.last_used_turn)

theorem decay_ge_floor (m : MemRow) (t : ℤ) :
    (1/10 : ℝ) ≤ calculate_memory_decay m t := by
  rw [calculate_memory_decay_eq]
  exact le_max_left _ _

theorem decay_le_one (m : MemRow) (t : ℤ) : calculate_memory_decay m t ≤ 1 := by
  rw [calculate_memory_decay_eq]
  refine max_le (by norm_num) ?_
  exact Real.rpow_le_one (by norm_num) (by norm_num) (decay_exponent_nonneg m t)

theorem decay_pos (m : MemRow) (t : ℤ) : (0 : ℝ) < calculate_memory_decay m t :=
  lt_of_lt_of_le (by norm_num) (decay_ge_floor m t)

theorem decay_strict_anti (m : MemRow) (t1 t2 : ℤ)
    (hlt : max 0 (t1 - m.last_used_turn) < max 0 (t2 - m.last_used_turn))
    (hfloor : (1/10 : ℝ) ≤
      (19/20 : ℝ) ^ (((max 0 (t2 - m.last_used_turn) : ℤ) : ℝ) / 100)) :
    calculate_memory_decay m t2 < calculate_memory_decay m t1 := by
  rw [calculate_memory_decay_eq, calculate_memory_decay_eq]
  have hexp : ((max 0 (t1 - m.last_used_turn) : ℤ) : ℝ) / 100 <
      ((max 0 (t2 - m.last_used_turn) : ℤ) : ℝ) / 100 := by
    apply (div_lt_div_iff_of_pos_right (by norm_num)).mpr
    exact_mod_cast hlt
  have hpow : (19/20 : ℝ) ^ (((max 0 (t2 - m.last_used_turn) : ℤ) : ℝ) / 100) <
      (19/20 : ℝ) ^ (((max 0 (t1 - m.last_used_turn) : ℤ) : ℝ) / 100) :=
    Real.rpow_lt_rpow_of_exponent_gt (by norm_num) (by norm_num) hexp
  calc max (1/10) ((19/20 : ℝ) ^ (((max 0 (t2 - m.last_used_turn) : ℤ) : ℝ) / 100))
      = (19/20 : ℝ) ^ (((max 0 (t2 - m.last_used_turn) : ℤ) : ℝ) / 100) :=
        max_eq_right hfloor
    _ < (19/20 : ℝ) ^ (((max 0 (t1 - m.last_used_turn) : ℤ) : ℝ) / 100) := hpow
    _ ≤ max (1/10) ((19/20 : ℝ) ^ (((max 0 (t1 - m.last_used_turn) : ℤ) : ℝ) / 100)) :=
        le_max_right _ _

theorem calculate_relevance_eq_of_bounds (m : MemRow) (user_input intent : String)
    {d : ℝ} (hd0 : 0 ≤ d) (hd1 : d ≤ 1)
    (hb0 : 0 ≤ base_score m user_input intent) (hc0 : 0 ≤ m.confidence)
    (hc1 : m.confidence ≤ 1) :
    calculate_relevance m user_input intent d =
      (base_score m user_input intent : ℝ) * d * (m.confidence : ℝ) := by
  unfold calculate_relevance
  have hb0' : (0 : ℝ) ≤ (base_score m user_input intent : ℝ) := by exact_mod_cast hb0
  have hb1' : (base_score m user_input intent : ℝ) ≤ 1 := by
    exact_mod_cast base_score_le_one m user_input intent
  have hc0' : (0 : ℝ) ≤ (m.confidence : ℝ) := by exact_mod_cast hc0
  have hc1' : (m.confidence : ℝ) ≤ 1 := by exact_mod_cast hc1
  have hx0 : (0 : ℝ) ≤ (base_score m user_input intent : ℝ) * d * (m.confidence : ℝ) :=
    mul_nonneg (mul_nonneg hb0' hd0) hc0'
  have hx1 : (base_score m user_input intent : ℝ) * d * (m.confidence : ℝ) ≤ 1 :=
    mul_le_one₀ (mul_le_one₀ hb1' hd0 hd1) hc0' hc1'
  rw [max_eq_right hx0, min_eq_right hx1]

/-- Claim C8: the recomputed decay equals `max(0.1, 0.95 ^ (elapsed/100))`
with `elapsed = max(0, turn - last_used_turn)`, equals `1.0` at `elapsed = 0`
and never falls below `0.1`; and for fixed confidence and relevance (the
rational `base_score` combining semantic similarity and intent match), the
retrieval `final_score` strictly decreases as `elapsed` grows — as long as
the exponential still clears the `0.1` floor — and is bounded below by
`0.1 × base × confidence`. -/
theorem decay_formula_and_monotonicity (m : MemRow) (user_input intent : String)
    (t1 t2 : ℤ)
    (hb : 0 < base_score m user_input intent)
    (hc0 : 0 < m.confidence) (hc1 : m.confidence ≤ 1)
    (helapsed : max 0 (t1 - m.last_used_turn) < max 0 (t2 - m.last_used_turn))
    (hfloor : (1/10 : ℝ) ≤
      (19/20 : ℝ) ^ (((max 0 (t2 - m.last_used_turn) : ℤ) : ℝ) / 100)) :
    (∀ (n : MemRow) (t : ℤ), calculate_memory_decay n t =
      max (1/10) ((19/20 : ℝ) ^ (((max 0 (t - n.last_used_turn) : ℤ) : ℝ) / 100))) ∧
    (∀ (n : MemRow) (t : ℤ), t ≤ n.last_used_turn → calculate_memory_decay n t = 1) ∧
    (∀ (n : MemRow) (t : ℤ), (1/10 : ℝ) ≤ calculate_memory_decay n t) ∧
    calculate_relevance m user_input intent (calculate_memory_decay m t2) <
      calculate_relevance m user_input intent (calculate_memory_decay m t1) ∧
    (∀ t : ℤ, (1/10 : ℝ) * (base_score m user_input intent : ℝ) * (m.confidence : ℝ) ≤
      calculate_relevance m user_input intent (calculate_memory_decay m t)) := by
  have hb0 : (0 : ℚ) ≤ base_score m user_input intent := le_of_lt hb
  have hc0' : (0 : ℚ) ≤ m.confidence := le_of_lt hc0
  have hbc_pos : (0 : ℝ) < (base_score m user_input intent : ℝ) * (m.confidence : ℝ) := by
    have h1 : (0 : ℝ) < (base_score m user_input intent : ℝ) := by exact_mod_cast hb
    have h2 : (0 : ℝ) < (m.confidence : ℝ) := by exact_mod_cast hc0
    exact mul_pos h1 h2
  refine ⟨calculate_memory_decay_eq, ?_, decay_ge_floor, ?_, ?_⟩
  · intro n t ht
    unfold calculate_memory_decay
    rw [if_pos (by omega)]
  · rw [calculate_relevance_eq_of_bounds m user_input intent
        (le_of_lt (decay_pos m t2)) (decay_le_one m t2) hb0 hc0' hc1,
      calculate_relevance_eq_of_bounds m user_input intent
        (le_of_lt (decay_pos m t1)) (decay_le_one m t1) hb0 hc0' hc1]
    have hd : calculate_memory_decay m t2 < calculate_memory_decay m t1 :=
      decay_strict_anti m t1 t2 helapsed hfloor
    calc (base_score m user_input intent : ℝ) * calculate_memory_decay m t2 *
          (m.confidence : ℝ)
        = (base_score m user_input intent : ℝ) * (m.confidence : ℝ) *
            calculate_memory_decay m t2 := by ring
      _ < (base_score m user_input intent : ℝ) * (m.confidence : ℝ) *
            calculate_memory_decay m t1 := by
          exact mul_lt_mul_of_pos_left hd hbc_pos
      _ = (base_score m user_input intent : ℝ) * calculate_memory_decay m t1 *
            (m.confidence : ℝ) := by ring
  · intro t
    rw [calculate_relevance_eq_of_bounds m user_input intent
        (le_of_lt (decay_pos m t)) (decay_le_one m t) hb0 hc0' hc1]
    have hd := decay_ge_floor m t
    nlinarith [hbc_pos]

/-- Witness for C8: the chess preference row last used at turn 0, compared at
turns 0 and 100; at elapsed 100 the exponential is `0.95`, above the floor. -/
theorem decay_formula_and_monotonicity_witness :
    (0 : ℚ) < base_score c8_row "what is chess" "GENERAL_KNOWLEDGE" ∧
    (0 : ℚ) < c8_row.confidence ∧ c8_row.confidence ≤ 1 ∧
    max 0 ((0 : ℤ) - c8_row.last_used_turn) < max 0 ((100 : ℤ) - c8_row.last_used_turn) ∧
    ((1/10 : ℝ) ≤
      (19/20 : ℝ) ^ (((max 0 ((100 : ℤ) - c8_row.last_used_turn) : ℤ) : ℝ) / 100)) ∧
    (calculate_relevance c8_row "what is chess" "GENERAL_KNOWLEDGE"
        (calculate_memory_decay c8_row 100) <
      calculate_relevance c8_row "what is chess" "GENERAL_KNOWLEDGE"
        (calculate_memory_decay c8_row 0)) := by
  have hexp : (((max 0 ((100 : ℤ) - c8_row.last_used_turn) : ℤ) : ℝ) / 100) = 1 := by
    norm_num [c8_row]
  have hfloor : (1/10 : ℝ) ≤
      (19/20 : ℝ) ^ (((max 0 ((100 : ℤ) - c8_row.last_used_turn) : ℤ) : ℝ) / 100) := by
    rw [hexp, Real.rpow_one]
    norm_num
  have hb : (0 : ℚ) < base_score c8_row "what is chess" "GENERAL_KNOWLEDGE" := by
    have hk : c8_row.key = "interest" := rfl
    have hv : c8_row.value = "chess" := rfl
    have ht : c8_row.type_ = "preference" := rfl
    have hcc : count_common (py_split (py_lower "what is chess"))
        (py_split (py_lower "interest" ++ " " ++ py_lower "chess")) = 1 := by decide
    have hsem : calculate_semantic_similarity c8_row "what is chess" = 1 := by
      simp only [calculate_semantic_similarity, hk, hv, ht, hcc]
      norm_num +decide
    simp only [base_score, hsem, ht]
    norm_num +decide [intent_memory_map]
  refine ⟨hb, by norm_num [c8_row], by norm_num [c8_row], by norm_num [c8_row], hfloor, ?_⟩
  exact (decay_formula_and_monotonicity c8_row "what is chess" "GENERAL_KNOWLEDGE" 0 100 hb
    (by norm_num [c8_row]) (by norm_num [c8_row]) (by norm_num [c8_row]) hfloor).2.2.2.1

/-! ## Claim C1: retrieval for empty-eligible-kind intents -/

/-- Claim C1 is violated by the code: the claim (and the spec) say that for
`GENERAL_KNOWLEDGE` or `CHIT_CHAT` — intents whose eligible-kind set is
empty — retrieval returns the empty sequence regardless of store contents.
But `get_memories_by_types` tests the kind list with Python truthiness
(`if memory_types:`), so the EMPTY list falls through to the unfiltered
query: with a single stored preference `interest = chess` freshly used at
turn 5, the `GENERAL_KNOWLEDGE` input `"what is chess"` retrieves that
memory (final score `0.63 > 0.15`), contradicting the code's own comment
`# Don't retrieve personal memories for general knowledge`. -/
theorem general_knowledge_retrieval_not_empty :
    detect_intent "what is chess" = "GENERAL_KNOWLEDGE" ∧
    intent_memory_map "GENERAL_KNOWLEDGE" = [] ∧
    ((retrieve_relevant_memories [c1_chess_row] "u1" "what is chess" 5 0).1.map
      (fun p => p.1)) = [c1_chess_row] := by
  have hint : detect_intent "what is chess" = "GENERAL_KNOWLEDGE" := by decide
  refine ⟨hint, rfl, ?_⟩
  have hcand : get_memories_by_types [c1_chess_row] "u1"
      (intent_memory_map "GENERAL_KNOWLEDGE") 50 = [c1_chess_row] := by
    norm_num +decide [get_memories_by_types, intent_memory_map, c1_chess_row,
      List.mergeSort_singleton]
  have hdecay : calculate_memory_decay c1_chess_row 5 = 1 := by
    simp only [calculate_memory_decay]
    rw [if_pos (by decide)]
  have hk : c1_chess_row.key = "interest" := rfl
  have hv : c1_chess_row.value = "chess" := rfl
  have ht : c1_chess_row.type_ = "preference" := rfl
  have hcc : count_common (py_split (py_lower "what is chess"))
      (py_split (py_lower "interest" ++ " " ++ py_lower "chess")) = 1 := by decide
  have hsem : calculate_semantic_similarity c1_chess_row "what is chess" = 1 := by
    simp only [calculate_semantic_similarity, hk, hv, ht, hcc]
    norm_num +decide
  have hbase : base_score c1_chess_row "what is chess" "GENERAL_KNOWLEDGE" = 7/10 := by
    simp only [base_score, hsem, ht]
    norm_num +decide [intent_memory_map]
  have hrel : calculate_relevance c1_chess_row "what is chess" "GENERAL_KNOWLEDGE"
      (calculate_memory_decay c1_chess_row 5) = 63/100 := by
    rw [hdecay]
    unfold calculate_relevance
    rw [hbase]
    have hconf : c1_chess_row.confidence = 9/10 := rfl
    rw [hconf]
    push_cast
    norm_num
  simp only [retrieve_relevant_memories, hint]
  rw [if_neg (show ¬ ("GENERAL_KNOWLEDGE" = "PERSONAL_QUERY") from by decide)]
  rw [hcand]
  rw [if_neg (show ¬ (([c1_chess_row] : List MemRow).isEmpty = true) from by decide)]
  simp only [List.filterMap_cons, List.filterMap_nil, hrel]
  rw [if_pos (show (15/100 : ℝ) < 63/100 from by norm_num)]
  simp [List.mergeSort_singleton]

/-! ## Claim C2: process_turn error propagation -/

/-- Counterexample to claim C2 as stated: the RESPOND step of `process_turn`
(memory_controller.py line 387) is not wrapped in any `try/except` and no
fallback acknowledgment string exists in the controller, so a failing
response capability propagates out of `process_turn`: at a concrete turn the
embedded pipeline returns the error instead of a result record. -/
theorem process_turn_respond_failure_propagates :
    process_turn (fun _ _ => Except.error ()) (fun _ => Except.ok none) [] "u1"
      "hello there friend" 1 0 (fun n => "mem_" ++ toString n) = Except.error () := by
  rfl

/-- Claim C2 (amended): `process_turn` returns a full result record whenever
the response capability returns normally, and extraction failures degrade to
the empty candidate list inside the extractor; but a failing
response-generation call propagates its error to the caller of
`process_turn` — no fixed fallback acknowledgment is substituted. -/
theorem process_turn_propagation
    (llm_extract : String → Except Unit (Option (List RawItem)))
    (resp respF : String → String → Except Unit String)
    (s : Store) (user_id user_input : String) (turn now : ℤ) (fresh : ℕ → String)
    (r : String)
    (hok : ∀ p u, resp p u = Except.ok r)
    (hfail : ∀ p u, respF p u = Except.error ()) :
    (∃ res st, process_turn resp llm_extract s user_id user_input turn now fresh =
        Except.ok (res, st) ∧ res.response = r) ∧
    process_turn respF llm_extract s user_id user_input turn now fresh =
      Except.error () ∧
    (∀ (inp : String) (t : ℤ),
      (extract_memory_from_input (fun _ => Except.error ()) inp t).1 = []) := by
  refine ⟨?_, ?_, ?_⟩
  · simp only [process_turn, hok]
    exact ⟨_, _, rfl, rfl⟩
  · simp only [process_turn, hfail]
  · intro inp t
    unfold extract_memory_from_input
    split_ifs <;> rfl

/-- Witness for the amended C2, at a concrete turn: a succeeding response
function yields a result record carrying its reply; a failing one makes
`process_turn` return the error. -/
theorem process_turn_propagation_witness :
    (∃ res st, process_turn (fun _ _ => Except.ok "Sure.") (fun _ => Except.ok none) []
        "u1" "hello there friend" 1 0 (fun n => "mem_" ++ toString n) =
        Except.ok (res, st) ∧ res.response = "Sure.") ∧
    process_turn (fun _ _ => Except.error ()) (fun _ => Except.ok none) []
      "u1" "hello there friend" 1 0 (fun n => "mem_" ++ toString n) =
      Except.error () ∧
    (∀ (inp : String) (t : ℤ),
      (extract_memory_from_input (fun _ => Except.error ()) inp t).1 = []) :=
  process_turn_propagation (fun _ => Except.ok none)
    (fun _ _ => Except.ok "Sure.") (fun _ _ => Except.error ()) [] "u1"
    "hello there friend" 1 0 (fun n => "mem_" ++ toString n) "Sure."
    (fun _ _ => rfl) (fun _ _ => rfl)

end NeuroHack
